import Mathlib

/-!
Verification of the agentic prediction-market trading engine.

This file is a shallow embedding, in Lean 4, of the parts of the Python
source that the specification's claims are about:

* `core/constants.py` and `core/config.py` (constants and settings),
* `database/models.py` (the persisted entities),
* `app/services/edge_calculator.py` (`calculate_edge`),
* `app/services/execution.py` (`execute_trade`),
* `app/services/agent_orchestrator.py` (`consensus_node`),
* `agents/debate/chatroom.py` (`_extract_updated_probability`, `run_debate`),
* `app/services/resolution_service.py` (`_close_positions_for_market`),
* `app/services/scanner_service.py` (`_passes_filter` and the upsert loop
  of `run_scan`).

Python floats are modelled as exact rationals (`ℚ`); Python's `round`
builtin is modelled by `pyRound` (round-half-even to a number of decimal
places) and `int()` truncation by `pyTrunc`.  Timestamps are modelled at
(day, intra-day) granularity, which is what the code observes through
`datetime.date()` comparisons.  External I/O (LLM replies, venue order
placement) is modelled by explicit oracle parameters.  Log statements and
the numeric interpolation inside human-readable message strings are elided;
the structure and nullness of every message field is kept.
-/

namespace PM

/-! ## Python numeric primitives -/

/-- Round-half-even on rationals: the rounding mode of Python 3's `round`
builtin (on our exact-rational model of Python floats). -/
def roundHalfEven (x : ℚ) : ℤ :=
  if x - ⌊x⌋ < 1 / 2 then ⌊x⌋
  else if 1 / 2 < x - ⌊x⌋ then ⌊x⌋ + 1
  else if ⌊x⌋ % 2 = 0 then ⌊x⌋ else ⌊x⌋ + 1

/-- Python's `round(x, d)`: round to `d` decimal places, ties to even. -/
def pyRound (d : ℕ) (x : ℚ) : ℚ :=
  (roundHalfEven (x * 10 ^ d) : ℚ) / 10 ^ d

/-- Python's `int(x)`: truncation toward zero. -/
def pyTrunc (x : ℚ) : ℤ :=
  if 0 ≤ x then ⌊x⌋ else -⌊-x⌋

/-- Maximum of a list of rationals; Python's `max` on a non-empty list. -/
def listMax : List ℚ → ℚ
  | [] => 0
  | x :: xs => xs.foldl max x

/-- Minimum of a list of rationals; Python's `min` on a non-empty list. -/
def listMin : List ℚ → ℚ
  | [] => 0
  | x :: xs => xs.foldl min x

/-- Python's `statistics.median`: sort, take the middle element (odd length)
or the mean of the two middle elements (even length).  Callers in the
source only apply it to non-empty lists. -/
def medianQ (l : List ℚ) : ℚ :=
  let s := l.mergeSort (· ≤ ·)
  let n := l.length
  if n % 2 = 1 then s.getD (n / 2) 0
  else (s.getD (n / 2 - 1) 0 + s.getD (n / 2) 0) / 2

/-! ## `core/constants.py` — hard-coded safety rails -/

def STOP_LOSS_PCT : ℚ := 0.05
def MAX_DAILY_DRAWDOWN_PCT : ℚ := 0.02
def MAX_CONCURRENT_POSITIONS : ℕ := 15
def MAX_SPREAD : ℚ := 0.15
def DEBATE_DIVERGENCE_THRESHOLD : ℚ := 0.10
def MAX_DEBATE_ROUNDS : ℕ := 5
def CONVERGENCE_THRESHOLD : ℚ := 0.05

/-! ## `core/config.py` — environment-backed settings (defaults as in source) -/

/-- The fields of `Settings` the verified components read. -/
structure Settings where
  MIN_MARKET_VOLUME : ℤ := 200
  MIN_EDGE_THRESHOLD : ℚ := 0.05
  MAX_DAYS_TO_EXPIRY : ℤ := 30
  MAX_POSITION_PCT : ℚ := 5.0
  BANKROLL : ℚ := 10000
  deriving Repr, DecidableEq

/-! ## `database/models.py` — entities and enums -/

inductive Platform where
  | kalshi
  | polymarket
  deriving Repr, DecidableEq

inductive MarketCategory where
  | economics | politics | weather | crypto | sports | entertainment | other
  deriving Repr, DecidableEq

inductive MarketStatus where
  | active | resolved_yes | resolved_no | expired
  deriving Repr, DecidableEq

inductive PositionSide where
  | yes
  | no
  deriving Repr, DecidableEq

inductive PositionStatus where
  | pending | open | closed_win | closed_loss | closed_early | cancelled
  deriving Repr, DecidableEq

/-- UTC timestamps, at (day, intra-day) granularity; `datetime.date()` is
the `day` component. -/
structure PyDatetime where
  day : ℤ
  msOfDay : ℤ := 0
  deriving Repr, DecidableEq

/-- Model of `database/models.py` `Market` (DB-assigned ids modelled as plain
integers; `close_time` and text metadata not read by the verified
components are elided). -/
structure Market where
  id : ℤ := 0
  platform : Platform
  platform_market_id : String
  title : String := ""
  category : MarketCategory := .other
  yes_price : ℚ
  no_price : ℚ
  spread : ℚ
  volume_24h : ℤ := 0
  days_to_expiry : Option ℤ := none
  status : MarketStatus := .active
  resolved_outcome : Option Bool := none
  first_seen : PyDatetime := { day := 0 }
  last_updated : PyDatetime := { day := 0 }
  deriving Repr, DecidableEq

/-- Model of `database/models.py` `EdgeAnalysis`. -/
structure EdgeAnalysis where
  id : Option ℤ := none
  market_id : ℤ
  scan_id : String
  system_probability : ℚ
  market_price : ℚ
  edge : ℚ
  expected_value : ℚ
  kelly_fraction : ℚ
  half_kelly_fraction : ℚ
  position_size_dollars : ℚ
  num_contracts : ℤ
  recommended_side : PositionSide
  tradeable : Bool
  rejection_reason : Option String := none
  debate_triggered : Bool := false
  debate_transcript : Option String := none
  estimates_divergence : ℚ := 0
  deriving Repr, DecidableEq

/-- Model of `database/models.py` `Position`. -/
structure Position where
  market_id : ℤ
  edge_analysis_id : Option ℤ := none
  platform : Platform
  side : PositionSide
  num_contracts : ℤ
  entry_price : ℚ
  total_cost : ℚ
  exit_price : Option ℚ := none
  pnl_dollars : Option ℚ := none
  pnl_percent : Option ℚ := none
  status : PositionStatus := .pending
  platform_order_id : Option String := none
  opened_at : PyDatetime := { day := 0 }
  closed_at : Option PyDatetime := none
  deriving Repr, DecidableEq

/-- The estimate dicts flowing between the desk nodes, `consensus_node`,
`calculate_edge` and `run_debate` (`_estimate_to_dict` in
`agent_orchestrator.py`; the keys the consumers read). -/
structure EstimateDict where
  desk : String
  probability : ℚ
  confidence : ℚ
  reasoning : String := ""
  deriving Repr, DecidableEq

/-! ## `core/math_utils.py` — the EV / Kelly engine -/

/-- Modelled from the spec: `core/math_utils.py` itself is not in the
source tree (only its tests and callers are).  Spec section 4.4:
`ev = p_win · profit_if_win − (1 − p_win) · loss_if_lose`. -/
def expected_value (p_win profit_pct loss_pct : ℚ) : ℚ :=
  p_win * profit_pct - (1 - p_win) * loss_pct

/-- Modelled from the spec: `core/math_utils.py` is not in the source tree.
Spec section 4.4: `b = profit / loss`; full Kelly
`k = (p_win · b − (1 − p_win)) / b`, clamped to `[0, 1]`. -/
def kelly_criterion (p_win profit_pct loss_pct : ℚ) : ℚ :=
  let b := profit_pct / loss_pct
  max 0 (min 1 ((p_win * b - (1 - p_win)) / b))

/-- Modelled from the spec: `core/math_utils.py` is not in the source tree.
Spec section 4.4: `half_kelly = min(k / 2, 0.25)` (hard cap). -/
def half_kelly (p_win profit_pct loss_pct : ℚ) : ℚ :=
  min (kelly_criterion p_win profit_pct loss_pct / 2) 0.25

/-! ## `app/services/edge_calculator.py` -/

/-- The side-selection block of `calculate_edge` (lines 68-81). -/
structure SideChoice where
  side : PositionSide
  p_win : ℚ
  profit_if_win : ℚ
  loss_if_lose : ℚ
  deriving Repr, DecidableEq

/-- Side selection: YES iff the system probability exceeds the market
price. -/
def choose_side (system_probability market_price : ℚ) : SideChoice :=
  if system_probability > market_price then
    { side := .yes, p_win := system_probability,
      profit_if_win := 1 - market_price, loss_if_lose := market_price }
  else
    { side := .no, p_win := 1 - system_probability,
      profit_if_win := market_price, loss_if_lose := 1 - market_price }

/-- Model of `_calc_divergence`: max minus min over the estimates' probabilities;
`0.0` for fewer than two estimates. -/
def calc_divergence (estimates : List EstimateDict) : ℚ :=
  if estimates.length < 2 then 0
  else
    let probs := estimates.map (·.probability)
    listMax probs - listMin probs

/-- The ordered rejection taxonomy of `calculate_edge` (lines 85-93).
The numeric interpolation inside the reason strings is elided. -/
def taxonomy_rejection (min_edge edge p_win profit_if_win loss_if_lose : ℚ) :
    Option String :=
  if edge < min_edge then some "Edge below minimum"
  else if p_win ≤ 0 ∨ 1 ≤ p_win then some "Invalid p_win"
  else if profit_if_win ≤ 0 ∨ loss_if_lose ≤ 0 then some "Invalid payoff structure"
  else none

/-- Model of `calculate_edge`: core edge and Kelly calculation for one contract. -/
def calculate_edge (settings : Settings) (system_probability market_price bankroll : ℚ)
    (scan_id : String) (market_id : ℤ) (estimates : List EstimateDict)
    (debate_triggered : Bool) (debate_transcript : Option String) : EdgeAnalysis :=
  let min_edge := settings.MIN_EDGE_THRESHOLD
  let max_position_pct := settings.MAX_POSITION_PCT / 100
  let c := choose_side system_probability market_price
  let edge := |system_probability - market_price|
  match taxonomy_rejection min_edge edge c.p_win c.profit_if_win c.loss_if_lose with
  | some reason =>
      { market_id := market_id, scan_id := scan_id,
        system_probability := system_probability, market_price := market_price,
        edge := pyRound 4 edge, expected_value := 0, kelly_fraction := 0,
        half_kelly_fraction := 0, position_size_dollars := 0, num_contracts := 0,
        recommended_side := c.side, tradeable := false,
        rejection_reason := some reason,
        debate_triggered := debate_triggered, debate_transcript := debate_transcript,
        estimates_divergence := calc_divergence estimates }
  | none =>
      let ev := expected_value c.p_win c.profit_if_win c.loss_if_lose
      let full_kelly := kelly_criterion c.p_win c.profit_if_win c.loss_if_lose
      let half_kelly_frac := half_kelly c.p_win c.profit_if_win c.loss_if_lose
      let position_dollars := min (half_kelly_frac * bankroll) (max_position_pct * bankroll)
      let contract_cost := if c.side = .yes then market_price else 1 - market_price
      let num_contracts := if 0 < contract_cost then pyTrunc (position_dollars / contract_cost) else 0
      let tradeable := decide (0 < ev) && decide (0 < num_contracts)
      let rejection_reason : Option String :=
        if tradeable then none else some "EV not positive or zero contracts"
      { market_id := market_id, scan_id := scan_id,
        system_probability := pyRound 4 system_probability,
        market_price := pyRound 4 market_price,
        edge := pyRound 4 edge, expected_value := pyRound 6 ev,
        kelly_fraction := pyRound 6 full_kelly,
        half_kelly_fraction := pyRound 6 half_kelly_frac,
        position_size_dollars := pyRound 2 position_dollars,
        num_contracts := num_contracts,
        recommended_side := c.side, tradeable := tradeable,
        rejection_reason := rejection_reason,
        debate_triggered := debate_triggered, debate_transcript := debate_transcript,
        estimates_divergence := pyRound 4 (calc_divergence estimates) }

/-! ## `app/services/agent_orchestrator.py` — `consensus_node` -/

/-- The output keys `consensus_node` writes into the pipeline state. -/
structure ConsensusOutput where
  system_probability : ℚ
  divergence : ℚ
  debate_needed : Bool
  consensus_reasoning : String
  deriving Repr, DecidableEq

/-- Model of `consensus_node`: combine the desk estimates; median if divergence is
within the debate threshold, confidence-weighted mean (pre-debate,
median when the weights do not sum positively) otherwise; fall back to
the market price when no estimates were produced.  The numeric
interpolation inside `consensus_reasoning` is elided. -/
def consensus_node (yes_price : ℚ) (estimates : List EstimateDict) : ConsensusOutput :=
  if estimates.isEmpty then
    { system_probability := yes_price, divergence := 0, debate_needed := false,
      consensus_reasoning := "No estimates produced - falling back to market price." }
  else
    let probabilities := estimates.map (·.probability)
    let confidences := estimates.map (·.confidence)
    let divergence := listMax probabilities - listMin probabilities
    let debate_needed := decide (DEBATE_DIVERGENCE_THRESHOLD < divergence)
    let system_probability :=
      if debate_needed then
        let total_weight := confidences.sum
        if 0 < total_weight then
          (List.zipWith (fun p c => p * c) probabilities confidences).sum / total_weight
        else medianQ probabilities
      else medianQ probabilities
    { system_probability := pyRound 4 system_probability,
      divergence := pyRound 4 divergence,
      debate_needed := debate_needed,
      consensus_reasoning := "Method, divergence and desk summaries" }

/-! ## `agents/debate/chatroom.py` — probability extraction

`_extract_updated_probability` scans the (case-folded) response text for
four labelled-number regex patterns in priority order; the first pattern
that matches anywhere in the text produces a candidate value, which is
accepted as-is in `(0, 1)`, as a percentage in `(1, 100]`, and otherwise
the next pattern is tried.  The regex engine below implements exactly
these four patterns over `List Char` with `re.search` (leftmost match)
semantics; the character classes of adjacent pieces are disjoint, so the
greedy quantifiers are maximal-munch, except for the bounded `[0-9]\x7b1,3\x7d`
in the fourth pattern, which backtracks from the longest length. -/

/-- Python's `[0-9]`. -/
def isDigitChar (c : Char) : Bool := decide ('0' ≤ c ∧ c ≤ '9')

/-- Python's `\s` (ASCII part; the texts scanned are ASCII). -/
def isSpaceChar (c : Char) : Bool :=
  decide (c = ' ' ∨ c = '\t' ∨ c = '\n' ∨ c = '\r' ∨ c = '\x0b' ∨ c = '\x0c')

/-- Python's `[:\s]`. -/
def isColonOrSpace (c : Char) : Bool := decide (c = ':') || isSpaceChar c

/-- Match a literal string at the head of the input, returning the rest. -/
def dropLit : List Char → List Char → Option (List Char)
  | [], cs => some cs
  | _, [] => none
  | l :: ls, c :: cs => if c = l then dropLit ls cs else none

/-- Match `CLASS+` (one or more, greedy) at the head of the input. -/
def dropClass1 (p : Char → Bool) (cs : List Char) : Option (List Char) :=
  match cs with
  | [] => none
  | c :: rest => if p c then some (rest.dropWhile p) else none

/-- Match an alternation of literal strings, first alternative wins. -/
def dropAlt (alts : List (List Char)) (cs : List Char) : Option (List Char) :=
  match alts with
  | [] => none
  | a :: rest =>
    match dropLit a cs with
    | some cs2 => some cs2
    | none => dropAlt rest cs

/-- Match the greedy number token `[0-9]+\.?[0-9]*` at the head of the
input, returning (token, rest). -/
def takeNumber (cs : List Char) : Option (List Char × List Char) :=
  match cs with
  | [] => none
  | c :: _ =>
    if isDigitChar c then
      let intDigits := cs.takeWhile isDigitChar
      match cs.dropWhile isDigitChar with
      | '.' :: rest2 =>
          some (intDigits ++ '.' :: rest2.takeWhile isDigitChar, rest2.dropWhile isDigitChar)
      | rest1 => some (intDigits, rest1)
    else none

/-- Value of a digit string. -/
def digitsToNat (ds : List Char) : ℕ :=
  ds.foldl (fun acc c => 10 * acc + (c.toNat - '0'.toNat)) 0

/-- Python's `float()` on a matched `[0-9]+\.?[0-9]*` token (exact
rational value of the decimal literal). -/
def parseFloatToken (tok : List Char) : ℚ :=
  let intPart := tok.takeWhile isDigitChar
  match tok.dropWhile isDigitChar with
  | '.' :: frac => (digitsToNat intPart : ℚ) + (digitsToNat frac : ℚ) / 10 ^ frac.length
  | _ => (digitsToNat intPart : ℚ)

/-- Pattern `updated\s+(?:probability|estimate)[:\s]+([0-9]+\.?[0-9]*)`
anchored at the current position. -/
def matchPattern1 (cs : List Char) : Option ℚ :=
  (dropLit "updated".data cs).bind fun cs1 =>
  (dropClass1 isSpaceChar cs1).bind fun cs2 =>
  (dropAlt ["probability".data, "estimate".data] cs2).bind fun cs3 =>
  (dropClass1 isColonOrSpace cs3).bind fun cs4 =>
  (takeNumber cs4).map fun t => parseFloatToken t.1

/-- Pattern `(?:my|revised|new|final)\s+(?:probability|estimate)[:\s]+([0-9]+\.?[0-9]*)`
anchored at the current position. -/
def matchPattern2 (cs : List Char) : Option ℚ :=
  (dropAlt ["my".data, "revised".data, "new".data, "final".data] cs).bind fun cs1 =>
  (dropClass1 isSpaceChar cs1).bind fun cs2 =>
  (dropAlt ["probability".data, "estimate".data] cs2).bind fun cs3 =>
  (dropClass1 isColonOrSpace cs3).bind fun cs4 =>
  (takeNumber cs4).map fun t => parseFloatToken t.1

/-- Pattern `probability[:\s]+([0-9]+\.?[0-9]*)` anchored at the current
position. -/
def matchPattern3 (cs : List Char) : Option ℚ :=
  (dropLit "probability".data cs).bind fun cs1 =>
  (dropClass1 isColonOrSpace cs1).bind fun cs2 =>
  (takeNumber cs2).map fun t => parseFloatToken t.1

/-- One backtracking branch of the fourth pattern: exactly `k` fractional
digits, then `\s*`, then one of the keywords. -/
def matchP4Frac (d : Char) (rest : List Char) (k : ℕ) : Option ℚ :=
  let frac := rest.take k
  if frac.length = k ∧ frac.all isDigitChar then
    let rest2 := (rest.drop k).dropWhile isSpaceChar
    match dropAlt ["probability".data, "chance".data, "likelihood".data] rest2 with
    | some _ => some (parseFloatToken (d :: '.' :: frac))
    | none => none
  else none

/-- Pattern `([0-9]\.[0-9]\x7b1,3\x7d)\s*(?:probability|chance|likelihood)`
anchored at the current position (greedy `\x7b1,3\x7d`, so lengths are tried
from 3 down to 1). -/
def matchPattern4 (cs : List Char) : Option ℚ :=
  match cs with
  | d :: '.' :: rest =>
    if isDigitChar d then
      match matchP4Frac d rest 3 with
      | some v => some v
      | none =>
        match matchP4Frac d rest 2 with
        | some v => some v
        | none => matchP4Frac d rest 1
    else none
  | _ => none

/-- Python `re.search` semantics: try the anchored matcher at each position from
the left; the first position where it matches wins. -/
def searchFrom (matchAt : List Char → Option ℚ) : List Char → Option ℚ
  | [] => matchAt []
  | c :: cs =>
    match matchAt (c :: cs) with
    | some v => some v
    | none => searchFrom matchAt cs

/-- The four patterns of `_extract_updated_probability`, in priority
order. -/
def debate_probability_patterns : List (List Char → Option ℚ) :=
  [matchPattern1, matchPattern2, matchPattern3, matchPattern4]

/-- The range check applied to a matched value: accept `(0,1)` as-is,
`(1,100]` as a percentage, otherwise move on to the next pattern. -/
def accept_extracted_value (val : ℚ) : Option ℚ :=
  if 0 < val ∧ val < 1 then some val
  else if 1 < val ∧ val ≤ 100 then some (val / 100)
  else none

/-- Model of `_extract_updated_probability`: scan the case-folded text with each
pattern in order; return the first in-range value, `none` if no pattern
yields one. -/
def extract_updated_probability (text : String) : Option ℚ :=
  debate_probability_patterns.findSome? fun pat =>
    (searchFrom pat (text.data.map Char.toLower)).bind accept_extracted_value

/-! ## `agents/debate/chatroom.py` — `run_debate` -/

/-- Python-dict association lists (insertion order preserved, update in
place). -/
def dict_set {α : Type} (d : List (String × α)) (k : String) (v : α) :
    List (String × α) :=
  match d with
  | [] => [(k, v)]
  | (k1, v1) :: rest =>
    if k1 = k then (k1, v) :: rest else (k1, v1) :: dict_set rest k v

/-- Build a Python dict from a list of key-value pairs (later duplicates
overwrite). -/
def dict_of {α : Type} (pairs : List (String × α)) : List (String × α) :=
  pairs.foldl (fun d kv => dict_set d kv.1 kv.2) []

/-- Python's `dict.get(k, default)`. -/
def dict_get {α : Type} (d : List (String × α)) (k : String) (dflt : α) : α :=
  match d.find? (fun kv => kv.1 == k) with
  | some kv => kv.2
  | none => dflt

/-- One entry of the debate transcript (`round`, `agent`, `type`,
`message`, optional `updated_probability`). -/
structure TranscriptEntry where
  round : ℕ
  agent : String
  type : String
  message : String
  updated_probability : Option ℚ := none
  deriving Repr, DecidableEq

/-- The dict `run_debate` returns. -/
structure DebateResult where
  consensus_probability : ℚ
  converged : Bool
  rounds_used : ℕ
  transcript : List TranscriptEntry
  deriving Repr, DecidableEq

/-- The update step of `run_debate`'s inner loop: replace the desk's
current probability when extraction succeeds, keep it unchanged when the
response yields no labelled value. -/
def apply_extraction (cur : List (String × ℚ)) (desk : String) (response : String) :
    List (String × ℚ) :=
  match extract_updated_probability response with
  | some p => dict_set cur desk p
  | none => cur

/-- State threaded through the debate rounds: the mutable estimates dict,
the transcript, and the number of LLM calls made so far (indexing the
reply oracle). -/
structure DebateLoopState where
  estimatesMap : List (String × ℚ)
  transcript : List TranscriptEntry
  llmCalls : ℕ
  deriving Repr, DecidableEq

/-- One desk's turn inside a debate round: call the LLM (the oracle);
on success extract and apply an updated probability and append a
critique/defense entry; on an exception append an error entry and leave
the estimate unchanged. -/
def debate_desk_turn (replies : ℕ → Except String String) (round_num : ℕ)
    (st : DebateLoopState) (desk : String) : DebateLoopState :=
  match replies st.llmCalls with
  | .ok response =>
      let cur2 := apply_extraction st.estimatesMap desk response
      { estimatesMap := cur2,
        transcript := st.transcript ++
          [{ round := round_num, agent := desk,
             type := if round_num = 2 then "critique" else "defense",
             message := String.mk (response.data.take 500),
             updated_probability := some (dict_get cur2 desk 0) }],
        llmCalls := st.llmCalls + 1 }
  | .error e =>
      { st with
        transcript := st.transcript ++
          [{ round := round_num, agent := desk, type := "error",
             message := "Failed to respond: " ++ e }],
        llmCalls := st.llmCalls + 1 }

/-- One debate round: check convergence first (Python `break`s out of the
loop here; since the state is left untouched, skipping each remaining
round is equivalent), otherwise give every desk a turn. -/
def debate_round (replies : ℕ → Except String String) (desks : List String)
    (st : DebateLoopState) (round_num : ℕ) : DebateLoopState :=
  let probs := st.estimatesMap.map (·.2)
  if listMax probs - listMin probs ≤ CONVERGENCE_THRESHOLD then st
  else desks.foldl (debate_desk_turn replies round_num) st

/-- Python's `max(e["round"] for e in transcript) if transcript else 0`. -/
def max_round (transcript : List TranscriptEntry) : ℕ :=
  if transcript.isEmpty then 0 else (transcript.map (·.round)).foldl max 0

/-- Model of `run_debate`: multi-round debate between the desks.  LLM calls are the
oracle `replies` (indexed by call order); `.error` models a raised
exception.  The returned `Except` models Python exceptions escaping
`run_debate` itself: an empty estimates list reaches `max()` on an empty
sequence, and the non-converged zero-weight branch reaches the local name
`statistics`, whose `import` statement only executes in the converged
branch, raising `UnboundLocalError`.  Message strings keep their
structure with numeric interpolation elided. -/
def run_debate (market_title : String) (estimates : List EstimateDict)
    (replies : ℕ → Except String String) : Except String DebateResult :=
  let current0 := dict_of (estimates.map fun e => (e.desk, e.probability))
  let reasoning_map := dict_of (estimates.map fun e => (e.desk, e.reasoning))
  let desks := current0.map (·.1)
  if desks.isEmpty then
    .error "ValueError: max() arg is an empty sequence"
  else
    let transcript1 : List TranscriptEntry := desks.map fun desk =>
      { round := 1, agent := desk, type := "opening",
        message := "My estimate for " ++ market_title ++ ". Reasoning: " ++
          dict_get reasoning_map desk "" }
    let st := [2, 3, 4, 5].foldl (debate_round replies desks)
      { estimatesMap := current0, transcript := transcript1, llmCalls := 0 }
    let probs := st.estimatesMap.map (·.2)
    let converged := decide (listMax probs - listMin probs ≤ CONVERGENCE_THRESHOLD)
    if converged then
      .ok { consensus_probability := pyRound 4 (medianQ probs), converged := true,
            rounds_used := max_round st.transcript, transcript := st.transcript }
    else
      let confidences := dict_of (estimates.map fun e => (e.desk, e.confidence))
      let total_weight := (confidences.map (·.2)).sum
      if 0 < total_weight then
        let consensus0 :=
          (desks.map fun d => dict_get st.estimatesMap d 0 * dict_get confidences d 0.5).sum
            / total_weight
        let consensus := consensus0 * 0.9 + 0.5 * 0.1
        let transcript2 := st.transcript ++
          [{ round := MAX_DEBATE_ROUNDS + 1, agent := "moderator",
             type := "final_ruling",
             message := "Agents did not converge - confidence-weighted average with conservative bias" }]
        .ok { consensus_probability := pyRound 4 consensus, converged := false,
              rounds_used := max_round transcript2, transcript := transcript2 }
      else
        .error "UnboundLocalError: local variable statistics referenced before assignment"

/-! ## `app/services/execution.py` — `execute_trade` -/

/-- Model of `_count_open_positions`: positions with status OPEN or PENDING. -/
def count_open_positions (positions : List Position) : ℕ :=
  (positions.filter fun p => decide (p.status = .open ∨ p.status = .pending)).length

/-- The kill-switch query of `execute_trade`: positions with `closed_at`
set, filtered in memory to those whose `closed_at.date()` is today, with
`pnl_dollars or 0.0` summed. -/
def daily_realized_pnl (positions : List Position) (today : ℤ) : ℚ :=
  ((positions.filter fun p => p.closed_at.isSome).filter fun p =>
      match p.closed_at with
      | some t => decide (t.day = today)
      | none => false).foldl (fun acc p => acc + p.pnl_dollars.getD 0) 0

/-- Model of `execute_trade`: check the Kelly gate verdict, the concurrent-position
cap, and the daily drawdown kill-switch; on pass, place one order (the
`order_id` oracle is the venue's reply, `none` when placement failed) and
create a PENDING `Position`.  Returns `none` exactly when one of the
three guards blocked the trade (no order attempted). -/
def execute_trade (settings : Settings) (edge : EdgeAnalysis) (market : Market)
    (positions : List Position) (today : ℤ) (order_id : Option String)
    (now : PyDatetime) : Option Position :=
  if edge.tradeable = false then none
  else if MAX_CONCURRENT_POSITIONS ≤ count_open_positions positions then none
  else if daily_realized_pnl positions today < -(settings.BANKROLL * MAX_DAILY_DRAWDOWN_PCT) then
    none
  else
    let entry_price := if edge.recommended_side = .yes then market.yes_price else market.no_price
    let total_cost := entry_price * (edge.num_contracts : ℚ)
    some { market_id := market.id, edge_analysis_id := edge.id,
           platform := market.platform, side := edge.recommended_side,
           num_contracts := edge.num_contracts,
           entry_price := pyRound 4 entry_price,
           total_cost := pyRound 2 total_cost,
           status := .pending, platform_order_id := order_id, opened_at := now }

/-! ## `app/services/resolution_service.py` — settlement -/

/-- The per-position settlement step of `_close_positions_for_market`:
P&L and status by side and outcome, exit price `1.0` for the winning
side and `0.0` otherwise. -/
def settle_position (outcome : Bool) (now : PyDatetime) (position : Position) : Position :=
  let pnlStatus : ℚ × PositionStatus :=
    if outcome then
      if position.side = .yes then
        ((1 - position.entry_price) * (position.num_contracts : ℚ), .closed_win)
      else (-position.total_cost, .closed_loss)
    else
      if position.side = .no then
        (position.entry_price * (position.num_contracts : ℚ), .closed_win)
      else (-position.total_cost, .closed_loss)
  let exit_price : ℚ :=
    if (outcome ∧ position.side = .yes) ∨ (¬outcome ∧ position.side = .no) then 1 else 0
  { position with
    status := pnlStatus.2,
    exit_price := some exit_price,
    pnl_dollars := some (pyRound 2 pnlStatus.1),
    pnl_percent := some (if 0 < position.total_cost
      then pyRound 2 (pnlStatus.1 / position.total_cost * 100) else 0),
    closed_at := some now }

/-- Model of `_close_positions_for_market`: settle every OPEN or PENDING position
on the resolved market. -/
def close_positions_for_market (positions : List Position) (market_id : ℤ)
    (outcome : Bool) (now : PyDatetime) : List Position :=
  (positions.filter fun p =>
      decide (p.market_id = market_id) &&
      decide (p.status = .open ∨ p.status = .pending)).map
    (settle_position outcome now)

/-! ## `app/services/scanner_service.py` — filter and upsert -/

/-- Model of `_passes_filter`: the scanner quality filter. -/
def passes_filter (settings : Settings) (market : Market) : Bool :=
  if market.volume_24h < settings.MIN_MARKET_VOLUME then false
  else if (match market.days_to_expiry with
           | some d => decide (settings.MAX_DAYS_TO_EXPIRY < d)
           | none => false) then false
  else if MAX_SPREAD < market.spread then false
  else if market.yes_price ≤ 0.03 ∨ 0.97 ≤ market.yes_price then false
  else true

/-- Identity of a market in the store: `(platform, platform_market_id)`. -/
def market_key (m : Market) : Platform × String :=
  (m.platform, m.platform_market_id)

/-- Store lookup by market key (the store is the Market table, modelled as
a list). -/
def store_lookup (k : Platform × String) (store : List Market) : Option Market :=
  store.find? fun x => decide (market_key x = k)

/-- One iteration of `run_scan`'s upsert loop: if a market with the same
key exists, mutate only its price/volume/expiry/`last_updated` fields;
otherwise insert the new market with `first_seen := now`. -/
def upsert_market (now : PyDatetime) : List Market → Market → List Market
  | [], m => [{ m with first_seen := now }]
  | x :: xs, m =>
    if market_key x = market_key m then
      { x with
        yes_price := m.yes_price
        no_price := m.no_price
        spread := m.spread
        volume_24h := m.volume_24h
        days_to_expiry := m.days_to_expiry
        last_updated := now } :: xs
    else x :: upsert_market now xs m

/-- The filter-and-upsert phase of `run_scan` (lines 265-297): the fetch
and normalization phases are modelled as producing the `fetched` list;
only markets passing `_passes_filter` are upserted. -/
def run_scan_upsert (settings : Settings) (now : PyDatetime)
    (store : List Market) (fetched : List Market) : List Market :=
  (fetched.filter (passes_filter settings)).foldl (upsert_market now) store

/-! ## Helper lemmas about the Python primitives -/

theorem roundHalfEven_le_floor_add_one (x : ℚ) : roundHalfEven x ≤ ⌊x⌋ + 1 := by
  unfold roundHalfEven
  split_ifs <;> omega

theorem floor_le_roundHalfEven (x : ℚ) : ⌊x⌋ ≤ roundHalfEven x := by
  unfold roundHalfEven
  split_ifs <;> omega

theorem roundHalfEven_mono {x y : ℚ} (h : x ≤ y) :
    roundHalfEven x ≤ roundHalfEven y := by
  by_cases hlt : ⌊x⌋ < ⌊y⌋
  · have h1 := roundHalfEven_le_floor_add_one x
    have h2 := floor_le_roundHalfEven y
    omega
  · have heq : ⌊x⌋ = ⌊y⌋ := le_antisymm (Int.floor_le_floor h) (by omega)
    have hr : x - (⌊x⌋ : ℚ) ≤ y - (⌊y⌋ : ℚ) := by
      rw [heq]
      linarith
    unfold roundHalfEven
    rw [heq]
    split_ifs <;> first | omega | linarith

theorem pyRound_mono (d : ℕ) {x y : ℚ} (h : x ≤ y) : pyRound d x ≤ pyRound d y := by
  unfold pyRound
  have hp : (0 : ℚ) < 10 ^ d := by positivity
  have hm : x * 10 ^ d ≤ y * 10 ^ d := by
    exact mul_le_mul_of_nonneg_right h (le_of_lt hp)
  have := roundHalfEven_mono hm
  exact div_le_div_of_nonneg_right (by exact_mod_cast this) hp.le

theorem pyTrunc_nonneg {x : ℚ} (h : 0 ≤ x) : 0 ≤ pyTrunc x := by
  unfold pyTrunc
  rw [if_pos h]
  exact Int.floor_nonneg.mpr h

theorem pyTrunc_zero : pyTrunc 0 = 0 := by
  unfold pyTrunc
  norm_num

theorem kelly_criterion_nonneg (p w l : ℚ) : 0 ≤ kelly_criterion p w l :=
  le_max_left 0 _

theorem half_kelly_nonneg (p w l : ℚ) : 0 ≤ half_kelly p w l := by
  unfold half_kelly
  exact le_min (div_nonneg (kelly_criterion_nonneg p w l) (by norm_num)) (by norm_num)

theorem half_kelly_le_quarter (p w l : ℚ) : half_kelly p w l ≤ 0.25 :=
  min_le_right _ _

/-- The taxonomy of `calculate_edge` accepts exactly when the edge meets
the minimum, `p_win` is in the open unit interval, and both payoff legs
are positive. -/
theorem taxonomy_rejection_eq_none_iff (me e pw pr lo : ℚ) :
    taxonomy_rejection me e pw pr lo = none ↔
      me ≤ e ∧ 0 < pw ∧ pw < 1 ∧ 0 < pr ∧ 0 < lo := by
  constructor
  · intro h
    unfold taxonomy_rejection at h
    split_ifs at h with h1 h2 h3
    push_neg at h1 h2 h3
    exact ⟨h1, h2.1, h2.2, h3.1, h3.2⟩
  · rintro ⟨ha, hb, hc, hd, he⟩
    unfold taxonomy_rejection
    rw [if_neg (not_lt.mpr ha), if_neg (by push_neg; exact ⟨hb, hc⟩),
      if_neg (by push_neg; exact ⟨hd, he⟩)]

/-- Kelly at zero edge for the NO side: when `p = m`, the Kelly numerator
vanishes and the whole fraction is zero. -/
theorem kelly_criterion_no_side_diag {m : ℚ} (hm1 : m < 1) :
    kelly_criterion (1 - m) m (1 - m) = 0 := by
  have h1 : (1 : ℚ) - m ≠ 0 := by linarith
  have hb : (1 - m) * (m / (1 - m)) - (1 - (1 - m)) = 0 := by
    field_simp
  simp only [kelly_criterion]
  rw [hb, zero_div]
  norm_num

theorem findSome?_some_mem {α β : Type} {l : List α} {f : α → Option β} {b : β}
    (h : l.findSome? f = some b) : ∃ a ∈ l, f a = some b := by
  induction l with
  | nil => simp at h
  | cons x xs ih =>
    cases hx : f x with
    | some v =>
      have hv : some v = some b := by
        rwa [List.findSome?_cons_of_isSome _ (by simp [hx]), hx] at h
      exact ⟨x, by simp, by rw [hx, hv]⟩
    | none =>
      have h2 : xs.findSome? f = some b := by
        rwa [List.findSome?_cons_of_isNone _ (by simp [hx])] at h
      obtain ⟨a, ha, hfa⟩ := ih h2
      exact ⟨a, by simp [ha], hfa⟩

/-! ## Shared sample inputs used by witnesses and counterexamples -/

/-- Spec scenario 5: three desk estimates with equal confidences. -/
def sampleEstimates : List EstimateDict :=
  [{ desk := "research_desk", probability := 0.48, confidence := 0.5 },
   { desk := "base_rate_desk", probability := 0.52, confidence := 0.5 },
   { desk := "model_desk", probability := 0.55, confidence := 0.5 }]

/-- Three identical six-decimal estimates (divergence zero, median branch). -/
def sixDecimalEstimates : List EstimateDict :=
  [{ desk := "research_desk", probability := 0.123456, confidence := 0.5 },
   { desk := "base_rate_desk", probability := 0.123456, confidence := 0.5 },
   { desk := "model_desk", probability := 0.123456, confidence := 0.5 }]

/-- A tradeable Kelly-gate verdict (scenario 1 numbers). -/
def sampleEdge : EdgeAnalysis :=
  { market_id := 1, scan_id := "s", system_probability := 0.7, market_price := 0.55,
    edge := 0.15, expected_value := 0.15, kelly_fraction := 0.3333,
    half_kelly_fraction := 0.1667, position_size_dollars := 500, num_contracts := 909,
    recommended_side := .yes, tradeable := true }

/-- A market record for the execution samples. -/
def sampleMarket : Market :=
  { id := 1, platform := .kalshi, platform_market_id := "T1", yes_price := 0.55,
    no_price := 0.45, spread := 0.01, volume_24h := 1000 }

/-- A position closed today (day 10) with the given realized P&L. -/
def closedPos (pnl : ℚ) : Position :=
  { market_id := 1, platform := .kalshi, side := .yes, num_contracts := 1,
    entry_price := 0.5, total_cost := 0.5, pnl_dollars := some pnl,
    status := .closed_loss, closed_at := some { day := 10 } }

/-- Spec scenario 7: an open YES position at entry 0.40 with 10 contracts. -/
def sampleOpenPos : Position :=
  { market_id := 1, platform := .kalshi, side := .yes, num_contracts := 10,
    entry_price := 0.40, total_cost := 4.00, status := .open }

/-- An open YES position whose win payout has four decimal places. -/
def fracEntryPos : Position :=
  { market_id := 1, platform := .kalshi, side := .yes, num_contracts := 7,
    entry_price := 0.1234, total_cost := 0.86, status := .open }

/-- A market failing the volume filter (volume 0 < 200). -/
def lowVolumeMarket : Market :=
  { id := 7, platform := .polymarket, platform_market_id := "PM7", yes_price := 0.5,
    no_price := 0.5, spread := 0.01, volume_24h := 0 }

/-! ## Claim theorems -/

/-- C10: when the estimates list reaching the consensus node is empty, the
reducer falls back to the market price: `system_probability = yes_price`,
`divergence = 0`, `debate_needed = false`. -/
theorem consensus_node_empty_fallback (yes_price : ℚ) :
    (consensus_node yes_price []).system_probability = yes_price ∧
    (consensus_node yes_price []).divergence = 0 ∧
    (consensus_node yes_price []).debate_needed = false :=
  ⟨rfl, rfl, rfl⟩

/-- C9: `run_debate` is not total at its interface: on a debate that never
converges (here: every LLM call raises, so the estimates stay 0.30 apart)
with initial confidences summing to zero, the median fallback line of the
moderator branch raises `UnboundLocalError`, because `import statistics`
only executes inside the converged branch. -/
theorem run_debate_unbound_local_error :
    run_debate "T"
      [{ desk := "research_desk", probability := 0.3, confidence := 0, reasoning := "r1" },
       { desk := "model_desk", probability := 0.6, confidence := 0, reasoning := "r2" }]
      (fun _ => .error "timeout")
    = .error "UnboundLocalError: local variable statistics referenced before assignment" := by
  with_unfolding_all rfl

/-- C3 (amended): side selection is YES with `p_win = p`,
`profit_if_win = 1 − m`, `loss_if_lose = m` when `p > m`, and NO with
`p_win = 1 − p`, `profit_if_win = m`, `loss_if_lose = 1 − m` otherwise;
the `edge` field of the returned record is `|p − m|` rounded half-even to
4 decimal places (not `|p − m|` itself). -/
theorem choose_side_and_recorded_edge
    (settings : Settings) (p m bankroll : ℚ) (scan_id : String) (market_id : ℤ)
    (estimates : List EstimateDict) (debate_triggered : Bool)
    (debate_transcript : Option String) :
    (p > m → choose_side p m =
      { side := .yes, p_win := p, profit_if_win := 1 - m, loss_if_lose := m }) ∧
    (¬p > m → choose_side p m =
      { side := .no, p_win := 1 - p, profit_if_win := m, loss_if_lose := 1 - m }) ∧
    (calculate_edge settings p m bankroll scan_id market_id estimates
        debate_triggered debate_transcript).edge = pyRound 4 |p - m| := by
  refine ⟨fun h => by simp [choose_side, h], fun h => by simp [choose_side, h], ?_⟩
  unfold calculate_edge
  dsimp only
  split <;> rfl

/-- C3 witness: at `(p, m) = (0.70, 0.55)` the YES side is chosen with the
claimed fields, at `(0.30, 0.55)` the NO side, and the recorded edge is
the rounded absolute difference. -/
theorem choose_side_and_recorded_edge_witness :
    choose_side 0.7 0.55 =
      { side := .yes, p_win := 0.7, profit_if_win := 0.45, loss_if_lose := 0.55 } ∧
    choose_side 0.3 0.55 =
      { side := .no, p_win := 0.7, profit_if_win := 0.55, loss_if_lose := 0.45 } ∧
    (calculate_edge {} 0.7 0.55 10000 "s" 1 [] false none).edge = pyRound 4 |0.7 - 0.55| := by
  have h1 := choose_side_and_recorded_edge ({} : Settings) 0.7 0.55 10000 "s" 1 [] false none
  have h2 := choose_side_and_recorded_edge ({} : Settings) 0.3 0.55 10000 "s" 1 [] false none
  refine ⟨?_, ?_, h1.2.2⟩
  · rw [h1.1 (by norm_num)]
    with_unfolding_all rfl
  · rw [h2.2.1 (by norm_num)]
    with_unfolding_all rfl

/-- C3 counterexample: at `(p, m) = (0.55556, 0.5)` the recorded `edge`
field is `0.0556`, which is not `|p − m| = 0.05556`: the persisted edge is
rounded to 4 decimal places. -/
theorem recorded_edge_not_exact_counterexample :
    (calculate_edge {} 0.55556 0.5 10000 "s" 1 [] false none).edge = 0.0556 ∧
    (0.0556 : ℚ) ≠ |(0.55556 : ℚ) - 0.5| :=
  ⟨by with_unfolding_all rfl, of_decide_eq_true (by with_unfolding_all rfl)⟩

/-- C6 (amended): every open or pending position on a resolved market is
settled by side and outcome — YES/YES wins `(1 − entry) · contracts`,
YES-outcome/NO-side loses `total_cost`, NO/NO wins `entry · contracts`,
NO-outcome/YES-side loses `total_cost` — with the P&L recorded rounded to
cents, and the exit price is 1.0 for the winning side and 0.0 otherwise. -/
theorem resolution_settles_open_positions
    (positions : List Position) (market_id : ℤ) (outcome : Bool) (now : PyDatetime)
    (p : Position) (hmem : p ∈ positions) (hmid : p.market_id = market_id)
    (hst : p.status = .open ∨ p.status = .pending) :
    settle_position outcome now p ∈ close_positions_for_market positions market_id outcome now ∧
    (outcome = true → p.side = .yes →
      (settle_position outcome now p).pnl_dollars
          = some (pyRound 2 ((1 - p.entry_price) * (p.num_contracts : ℚ))) ∧
      (settle_position outcome now p).status = .closed_win ∧
      (settle_position outcome now p).exit_price = some 1) ∧
    (outcome = true → p.side = .no →
      (settle_position outcome now p).pnl_dollars = some (pyRound 2 (-p.total_cost)) ∧
      (settle_position outcome now p).status = .closed_loss ∧
      (settle_position outcome now p).exit_price = some 0) ∧
    (outcome = false → p.side = .no →
      (settle_position outcome now p).pnl_dollars
          = some (pyRound 2 (p.entry_price * (p.num_contracts : ℚ))) ∧
      (settle_position outcome now p).status = .closed_win ∧
      (settle_position outcome now p).exit_price = some 1) ∧
    (outcome = false → p.side = .yes →
      (settle_position outcome now p).pnl_dollars = some (pyRound 2 (-p.total_cost)) ∧
      (settle_position outcome now p).status = .closed_loss ∧
      (settle_position outcome now p).exit_price = some 0) := by
  refine ⟨?_, ?_, ?_, ?_, ?_⟩
  · unfold close_positions_for_market
    exact List.mem_map_of_mem _ (List.mem_filter.mpr ⟨hmem, by simp [hmid, hst]⟩)
  · intro ho hs
    subst ho
    simp [settle_position, hs]
  · intro ho hs
    subst ho
    simp [settle_position, hs]
  · intro ho hs
    subst ho
    simp [settle_position, hs]
  · intro ho hs
    subst ho
    simp [settle_position, hs]

/-- C6 witness (spec scenario 7): a YES position at entry 0.40 with 10
contracts on a market resolving YES is settled as a 6.00 win with exit
price 1.0, and is among the settled positions of its market. -/
theorem resolution_settles_open_positions_witness :
    settle_position true { day := 5 } sampleOpenPos
        ∈ close_positions_for_market [sampleOpenPos] 1 true { day := 5 } ∧
    (settle_position true { day := 5 } sampleOpenPos).pnl_dollars = some 6 ∧
    (settle_position true { day := 5 } sampleOpenPos).status = .closed_win ∧
    (settle_position true { day := 5 } sampleOpenPos).exit_price = some 1 := by
  have h := resolution_settles_open_positions [sampleOpenPos] 1 true { day := 5 }
    sampleOpenPos (by simp) (by with_unfolding_all rfl) (Or.inl (by with_unfolding_all rfl))
  obtain ⟨hpnl, hstat, hexit⟩ := h.2.1 rfl (by with_unfolding_all rfl)
  refine ⟨h.1, ?_, hstat, hexit⟩
  rw [hpnl]
  with_unfolding_all rfl

/-- C6 counterexample: a YES/YES settlement at entry 0.1234 with 7
contracts records `pnl_dollars = 6.14`, not the exact
`(1 − entry) · contracts = 6.1362`: the stored P&L is rounded to cents. -/
theorem settlement_pnl_rounding_counterexample :
    (settle_position true { day := 5 } fracEntryPos).pnl_dollars = some 6.14 ∧
    (6.14 : ℚ) ≠ (1 - fracEntryPos.entry_price) * (fracEntryPos.num_contracts : ℚ) :=
  ⟨by with_unfolding_all rfl, of_decide_eq_true (by with_unfolding_all rfl)⟩

/-- C7: any value the debate probability extractor returns comes from a
matched number `X`, taken as-is when `X ∈ (0,1)` and as `X/100` when
`X ∈ (1,100]`; and when no pattern yields an in-range value, the desk's
previous probability is kept unchanged (no exception involved). -/
theorem extract_probability_range_and_keep (text : String) (v : ℚ)
    (cur : List (String × ℚ)) (desk : String) :
    (extract_updated_probability text = some v →
      ∃ pat ∈ debate_probability_patterns, ∃ X : ℚ,
        searchFrom pat (text.data.map Char.toLower) = some X ∧
        ((0 < X ∧ X < 1 ∧ v = X) ∨ (1 < X ∧ X ≤ 100 ∧ v = X / 100))) ∧
    (extract_updated_probability text = none →
      apply_extraction cur desk text = cur) := by
  constructor
  · intro h
    unfold extract_updated_probability at h
    obtain ⟨pat, hmem, hpat⟩ := findSome?_some_mem h
    obtain ⟨X, hX, hacc⟩ := Option.bind_eq_some.mp hpat
    refine ⟨pat, hmem, X, hX, ?_⟩
    unfold accept_extracted_value at hacc
    split_ifs at hacc with h1 h2
    · exact Or.inl ⟨h1.1, h1.2, (Option.some.inj hacc).symm⟩
    · exact Or.inr ⟨h2.1, h2.2, (Option.some.inj hacc).symm⟩
  · intro h
    unfold apply_extraction
    rw [h]

/-- C7 witness: `"updated probability: 0.42"` extracts `0.42` from a
matched in-range value, and a response with no labelled value leaves the
estimates dict unchanged. -/
theorem extract_probability_range_and_keep_witness :
    (∃ pat ∈ debate_probability_patterns, ∃ X : ℚ,
      searchFrom pat ("updated probability: 0.42".data.map Char.toLower) = some X ∧
      ((0 < X ∧ X < 1 ∧ (0.42 : ℚ) = X) ∨ (1 < X ∧ X ≤ 100 ∧ (0.42 : ℚ) = X / 100))) ∧
    apply_extraction [("research_desk", 0.5)] "research_desk" "no labelled value here"
      = [("research_desk", 0.5)] :=
  ⟨(extract_probability_range_and_keep "updated probability: 0.42" 0.42 [] "d").1
      (by with_unfolding_all rfl),
   (extract_probability_range_and_keep "no labelled value here" 0
      [("research_desk", 0.5)] "research_desk").2 (by with_unfolding_all rfl)⟩

/-- C5 (amended): for a non-empty estimates list the consensus reducer
records `divergence = max − min` rounded to 4 decimal places, debates
exactly when the unrounded divergence exceeds `D_DEBATE = 0.10`, and
records as `system_probability` the median (within threshold) or the
confidence-weighted mean (above threshold; median again when the weights
do not sum positively), rounded to 4 decimal places. -/
theorem consensus_node_nonempty_spec (yes_price : ℚ) (estimates : List EstimateDict)
    (hne : estimates ≠ []) :
    (consensus_node yes_price estimates).divergence
      = pyRound 4 (listMax (estimates.map (·.probability))
          - listMin (estimates.map (·.probability))) ∧
    ((consensus_node yes_price estimates).debate_needed = true ↔
      DEBATE_DIVERGENCE_THRESHOLD <
        listMax (estimates.map (·.probability)) - listMin (estimates.map (·.probability))) ∧
    (listMax (estimates.map (·.probability)) - listMin (estimates.map (·.probability))
        ≤ DEBATE_DIVERGENCE_THRESHOLD →
      (consensus_node yes_price estimates).system_probability
        = pyRound 4 (medianQ (estimates.map (·.probability)))) ∧
    (DEBATE_DIVERGENCE_THRESHOLD <
        listMax (estimates.map (·.probability)) - listMin (estimates.map (·.probability)) →
      (0 < (estimates.map (·.confidence)).sum →
        (consensus_node yes_price estimates).system_probability
          = pyRound 4 ((List.zipWith (fun p c => p * c) (estimates.map (·.probability))
              (estimates.map (·.confidence))).sum / (estimates.map (·.confidence)).sum)) ∧
      ((estimates.map (·.confidence)).sum ≤ 0 →
        (consensus_node yes_price estimates).system_probability
          = pyRound 4 (medianQ (estimates.map (·.probability))))) := by
  have hne' : estimates.isEmpty = false := by
    simpa [List.isEmpty_iff] using hne
  refine ⟨?_, ?_, ?_, ?_⟩
  · simp [consensus_node, hne']
  · simp [consensus_node, hne']
  · intro hle
    have hd : decide (DEBATE_DIVERGENCE_THRESHOLD <
        listMax (estimates.map (·.probability)) - listMin (estimates.map (·.probability)))
        = false := decide_eq_false (not_lt.mpr hle)
    simp [consensus_node, hne', hd]
  · intro hgt
    have hd : decide (DEBATE_DIVERGENCE_THRESHOLD <
        listMax (estimates.map (·.probability)) - listMin (estimates.map (·.probability)))
        = true := decide_eq_true hgt
    constructor
    · intro hw
      simp [consensus_node, hne', hd, hw]
    · intro hw
      have hw' : ¬ 0 < (estimates.map (·.confidence)).sum := not_lt.mpr hw
      simp [consensus_node, hne', hd, hw']

/-- C5 witness (spec scenario 5): estimates `[0.48, 0.52, 0.55]` with
confidences `[0.5, 0.5, 0.5]` give `system_probability = 0.52`,
`divergence = 0.07`, `debate_needed = false`. -/
theorem consensus_node_nonempty_spec_witness :
    (consensus_node 0.5 sampleEstimates).system_probability = 0.52 ∧
    (consensus_node 0.5 sampleEstimates).divergence = 0.07 ∧
    (consensus_node 0.5 sampleEstimates).debate_needed = false := by
  have h := consensus_node_nonempty_spec 0.5 sampleEstimates (by simp [sampleEstimates])
  refine ⟨?_, ?_, ?_⟩
  · rw [h.2.2.1 (of_decide_eq_true (by with_unfolding_all rfl))]
    with_unfolding_all rfl
  · rw [h.1]
    with_unfolding_all rfl
  · cases hcase : (consensus_node 0.5 sampleEstimates).debate_needed with
    | false => rfl
    | true => exact absurd (h.2.1.mp hcase) (of_decide_eq_false (by with_unfolding_all rfl))

/-- C5 counterexample: three identical estimates `0.123456` are in the
median branch (divergence 0, no debate), yet the recorded
`system_probability` is `0.1235`, not the median `0.123456`: the reducer
rounds its outputs to 4 decimal places. -/
theorem consensus_median_rounding_counterexample :
    (consensus_node 0.5 sixDecimalEstimates).divergence = 0 ∧
    (consensus_node 0.5 sixDecimalEstimates).debate_needed = false ∧
    (consensus_node 0.5 sixDecimalEstimates).system_probability = 0.1235 ∧
    (0.1235 : ℚ) ≠ medianQ (sixDecimalEstimates.map (·.probability)) :=
  ⟨by with_unfolding_all rfl, by with_unfolding_all rfl, by with_unfolding_all rfl,
   of_decide_eq_true (by with_unfolding_all rfl)⟩

/-- C2 (amended): the daily-drawdown kill-switch blocks the trade exactly
when today's realized P&L is strictly below
`−(BANKROLL · MAX_DAILY_DRAWDOWN_PCT)`; when the Kelly verdict is
tradeable, the concurrency cap has room and the realized P&L is at or
above that threshold, a Position is created.  In particular, at exactly
the threshold the trade is allowed to proceed. -/
theorem execute_trade_kill_switch
    (settings : Settings) (edge : EdgeAnalysis) (market : Market)
    (positions : List Position) (today : ℤ) (order_id : Option String) (now : PyDatetime) :
    (daily_realized_pnl positions today < -(settings.BANKROLL * MAX_DAILY_DRAWDOWN_PCT) →
      execute_trade settings edge market positions today order_id now = none) ∧
    (edge.tradeable = true →
      count_open_positions positions < MAX_CONCURRENT_POSITIONS →
      -(settings.BANKROLL * MAX_DAILY_DRAWDOWN_PCT) ≤ daily_realized_pnl positions today →
      (execute_trade settings edge market positions today order_id now).isSome = true) := by
  unfold execute_trade
  constructor
  · intro h
    by_cases h1 : edge.tradeable = false
    · rw [if_pos h1]
    · rw [if_neg h1]
      by_cases h2 : MAX_CONCURRENT_POSITIONS ≤ count_open_positions positions
      · rw [if_pos h2]
      · rw [if_neg h2, if_pos h]
  · intro htr hcnt hkill
    rw [if_neg (by simp [htr]), if_neg (not_le.mpr hcnt), if_neg (not_lt.mpr hkill)]
    rfl

/-- C2 witness: with `B = 10000` a realized P&L of `−210` today blocks the
trade (spec scenario 9), while a realized P&L of `−100` lets it through. -/
theorem execute_trade_kill_switch_witness :
    execute_trade {} sampleEdge sampleMarket [closedPos (-210)] 10 none { day := 10 }
        = none ∧
    (execute_trade {} sampleEdge sampleMarket [closedPos (-100)] 10 none
        { day := 10 }).isSome = true :=
  ⟨(execute_trade_kill_switch {} sampleEdge sampleMarket [closedPos (-210)] 10 none
      { day := 10 }).1 (of_decide_eq_true (by with_unfolding_all rfl)),
   (execute_trade_kill_switch {} sampleEdge sampleMarket [closedPos (-100)] 10 none
      { day := 10 }).2 (by with_unfolding_all rfl)
      (of_decide_eq_true (by with_unfolding_all rfl))
      (of_decide_eq_true (by with_unfolding_all rfl))⟩

/-- C2 counterexample: when today's realized P&L is exactly
`−(BANKROLL · MAX_DAILY_DRAWDOWN_PCT) = −200`, the kill-switch does not
block: `execute_trade` still creates a Position, because the code uses a
strict `<` comparison. -/
theorem execute_trade_kill_switch_boundary_counterexample :
    daily_realized_pnl [closedPos (-150), closedPos (-50)] 10
        = -((({} : Settings).BANKROLL) * MAX_DAILY_DRAWDOWN_PCT) ∧
    (execute_trade {} sampleEdge sampleMarket [closedPos (-150), closedPos (-50)] 10 none
        { day := 10 }).isSome = true :=
  ⟨by with_unfolding_all rfl, by with_unfolding_all rfl⟩

/-- The price/volume update of the upsert loop does not change a market's
store key. -/
theorem market_key_price_update (x m : Market) (now : PyDatetime) :
    market_key { x with
      yes_price := m.yes_price
      no_price := m.no_price
      spread := m.spread
      volume_24h := m.volume_24h
      days_to_expiry := m.days_to_expiry
      last_updated := now } = market_key x := rfl

/-- Upserting a market whose key differs from `k` does not change what the
store holds at `k`. -/
theorem store_lookup_upsert_of_key_ne (now : PyDatetime) (k : Platform × String) :
    ∀ (store : List Market) (m : Market), market_key m ≠ k →
      store_lookup k (upsert_market now store m) = store_lookup k store := by
  intro store
  induction store with
  | nil =>
    intro m hk
    have hkey : market_key { m with first_seen := now } = market_key m := rfl
    simp [upsert_market, store_lookup, List.find?, hkey, hk]
  | cons x xs ih =>
    intro m hk
    by_cases hx : market_key x = market_key m
    · have hxk : decide (market_key x = k) = false := by
        rw [hx]
        exact decide_eq_false hk
      simp only [upsert_market, if_pos hx, store_lookup]
      rw [List.find?_cons, List.find?_cons]
      rw [market_key_price_update x m now, hxk]
    · simp only [upsert_market, if_neg hx, store_lookup]
      rw [List.find?_cons, List.find?_cons]
      cases hxk : decide (market_key x = k)
      · exact ih m hk
      · rfl

/-- Folding the upsert over markets none of which carries key `k` leaves
the store unchanged at `k`. -/
theorem store_lookup_foldl_of_keys_ne (now : PyDatetime) (k : Platform × String) :
    ∀ (l : List Market) (store : List Market), (∀ mm ∈ l, market_key mm ≠ k) →
      store_lookup k (l.foldl (upsert_market now) store) = store_lookup k store := by
  intro l
  induction l with
  | nil => intro store _; rfl
  | cons x xs ih =>
    intro store h
    rw [List.foldl_cons, ih _ (fun mm hm => h mm (List.mem_cons_of_mem x hm))]
    exact store_lookup_upsert_of_key_ne now k store x (h x (List.mem_cons_self x xs))

/-- C8: the scan-cycle filter accepts exactly the markets with
`volume_24h ≥ MIN_VOLUME`, `days_to_expiry ≤ MAX_DAYS` when known,
`spread ≤ MAX_SPREAD` and `0.03 < yes_price < 0.97`; and the upsert loop
leaves the store unchanged at every key for which every fetched market is
non-qualifying — non-qualifying markets are neither inserted nor
updated. -/
theorem scanner_upsert_only_qualifying
    (settings : Settings) (m : Market) (store fetched : List Market)
    (k : Platform × String) (now : PyDatetime) :
    (passes_filter settings m = true ↔
      (settings.MIN_MARKET_VOLUME ≤ m.volume_24h ∧
       (∀ d, m.days_to_expiry = some d → d ≤ settings.MAX_DAYS_TO_EXPIRY) ∧
       m.spread ≤ MAX_SPREAD ∧ 0.03 < m.yes_price ∧ m.yes_price < 0.97)) ∧
    ((∀ mm ∈ fetched, market_key mm = k → passes_filter settings mm = false) →
      store_lookup k (run_scan_upsert settings now store fetched) = store_lookup k store) := by
  constructor
  · cases hd : m.days_to_expiry with
    | none => simp [passes_filter, hd, not_or, not_lt, not_le]
    | some d0 => simp [passes_filter, hd, not_or, not_lt, not_le]
  · intro h
    unfold run_scan_upsert
    apply store_lookup_foldl_of_keys_ne
    intro mm hm hk
    rcases List.mem_filter.mp hm with ⟨hmem, hpass⟩
    exact absurd (h mm hmem hk) (by simp [hpass])

/-- C8 witness: a zero-volume market is rejected by the filter and the
scan-cycle upsert leaves the (empty) store without it. -/
theorem scanner_upsert_only_qualifying_witness :
    passes_filter {} lowVolumeMarket = false ∧
    store_lookup (market_key lowVolumeMarket)
        (run_scan_upsert {} { day := 0 } [] [lowVolumeMarket])
      = store_lookup (market_key lowVolumeMarket) [] := by
  refine ⟨by with_unfolding_all rfl, ?_⟩
  refine (scanner_upsert_only_qualifying {} lowVolumeMarket [] [lowVolumeMarket]
    (market_key lowVolumeMarket) { day := 0 }).2 ?_
  intro mm hm _
  rw [List.mem_singleton.mp hm]
  with_unfolding_all rfl

/-! ## Normal forms of `calculate_edge` for the two return paths -/

/-- The expected value computed by `calculate_edge` after side selection. -/
def edge_ev (p m : ℚ) : ℚ :=
  expected_value (choose_side p m).p_win (choose_side p m).profit_if_win
    (choose_side p m).loss_if_lose

/-- The half-Kelly fraction computed by `calculate_edge`. -/
def edge_half_kelly (p m : ℚ) : ℚ :=
  half_kelly (choose_side p m).p_win (choose_side p m).profit_if_win
    (choose_side p m).loss_if_lose

/-- The capped position size computed by `calculate_edge`. -/
def edge_position_dollars (settings : Settings) (p m bankroll : ℚ) : ℚ :=
  min (edge_half_kelly p m * bankroll) (settings.MAX_POSITION_PCT / 100 * bankroll)

/-- The per-contract cost used by `calculate_edge`. -/
def edge_contract_cost (p m : ℚ) : ℚ :=
  if (choose_side p m).side = .yes then m else 1 - m

/-- The contract count computed by `calculate_edge`. -/
def edge_num_contracts (settings : Settings) (p m bankroll : ℚ) : ℤ :=
  if 0 < edge_contract_cost p m
  then pyTrunc (edge_position_dollars settings p m bankroll / edge_contract_cost p m)
  else 0

/-- On a taxonomy rejection, `calculate_edge` returns the zeroed record. -/
theorem calculate_edge_rejected_form (settings : Settings) (p m bankroll : ℚ)
    (scan_id : String) (market_id : ℤ) (estimates : List EstimateDict)
    (dt : Bool) (dtr : Option String) (reason : String)
    (h : taxonomy_rejection settings.MIN_EDGE_THRESHOLD |p - m| (choose_side p m).p_win
        (choose_side p m).profit_if_win (choose_side p m).loss_if_lose = some reason) :
    calculate_edge settings p m bankroll scan_id market_id estimates dt dtr =
      { market_id := market_id, scan_id := scan_id,
        system_probability := p, market_price := m,
        edge := pyRound 4 |p - m|, expected_value := 0, kelly_fraction := 0,
        half_kelly_fraction := 0, position_size_dollars := 0, num_contracts := 0,
        recommended_side := (choose_side p m).side, tradeable := false,
        rejection_reason := some reason,
        debate_triggered := dt, debate_transcript := dtr,
        estimates_divergence := calc_divergence estimates } := by
  unfold calculate_edge
  dsimp only
  rw [h]

/-- When the taxonomy accepts, `calculate_edge` returns the full sizing
record. -/
theorem calculate_edge_success_form (settings : Settings) (p m bankroll : ℚ)
    (scan_id : String) (market_id : ℤ) (estimates : List EstimateDict)
    (dt : Bool) (dtr : Option String)
    (h : taxonomy_rejection settings.MIN_EDGE_THRESHOLD |p - m| (choose_side p m).p_win
        (choose_side p m).profit_if_win (choose_side p m).loss_if_lose = none) :
    calculate_edge settings p m bankroll scan_id market_id estimates dt dtr =
      { market_id := market_id, scan_id := scan_id,
        system_probability := pyRound 4 p, market_price := pyRound 4 m,
        edge := pyRound 4 |p - m|,
        expected_value := pyRound 6 (edge_ev p m),
        kelly_fraction := pyRound 6 (kelly_criterion (choose_side p m).p_win
          (choose_side p m).profit_if_win (choose_side p m).loss_if_lose),
        half_kelly_fraction := pyRound 6 (edge_half_kelly p m),
        position_size_dollars := pyRound 2 (edge_position_dollars settings p m bankroll),
        num_contracts := edge_num_contracts settings p m bankroll,
        recommended_side := (choose_side p m).side,
        tradeable := decide (0 < edge_ev p m) &&
          decide (0 < edge_num_contracts settings p m bankroll),
        rejection_reason := if (decide (0 < edge_ev p m) &&
            decide (0 < edge_num_contracts settings p m bankroll)) = true
          then none else some "EV not positive or zero contracts",
        debate_triggered := dt, debate_transcript := dtr,
        estimates_divergence := pyRound 4 (calc_divergence estimates) } := by
  unfold calculate_edge
  dsimp only
  rw [h]
  rfl

/-- On the YES side the computed EV is exactly `p − m`. -/
theorem edge_ev_yes {p m : ℚ} (hpm : p > m) : edge_ev p m = p - m := by
  unfold edge_ev expected_value choose_side
  rw [if_pos hpm]
  ring

/-- On the NO side the computed EV is exactly `m − p`. -/
theorem edge_ev_no {p m : ℚ} (hpm : ¬p > m) : edge_ev p m = m - p := by
  unfold edge_ev expected_value choose_side
  rw [if_neg hpm]
  ring

/-- The position size is non-negative when bankroll and position cap are. -/
theorem edge_position_dollars_nonneg (settings : Settings) (p m bankroll : ℚ)
    (hB : 0 ≤ bankroll) (hpct : 0 ≤ settings.MAX_POSITION_PCT) :
    0 ≤ edge_position_dollars settings p m bankroll := by
  unfold edge_position_dollars edge_half_kelly
  exact le_min (mul_nonneg (half_kelly_nonneg _ _ _) hB)
    (mul_nonneg (div_nonneg hpct (by norm_num)) hB)

/-- The contract count is non-negative when bankroll and position cap
are. -/
theorem edge_num_contracts_nonneg (settings : Settings) (p m bankroll : ℚ)
    (hB : 0 ≤ bankroll) (hpct : 0 ≤ settings.MAX_POSITION_PCT) :
    0 ≤ edge_num_contracts settings p m bankroll := by
  unfold edge_num_contracts
  split_ifs with hc
  · exact pyTrunc_nonneg
      (div_nonneg (edge_position_dollars_nonneg settings p m bankroll hB hpct) hc.le)
  · exact le_refl 0

/-- C1 (amended): every `EdgeAnalysis` that `calculate_edge` returns with
`tradeable = false` has `num_contracts = 0` and a non-null
`rejection_reason`; `position_size_dollars = 0` holds on the taxonomy
rejection path, while the EV/zero-contracts rejection path records the
computed (possibly positive) position size. -/
theorem rejected_edge_zero_contracts
    (settings : Settings) (p m bankroll : ℚ) (scan_id : String) (market_id : ℤ)
    (estimates : List EstimateDict) (dt : Bool) (dtr : Option String)
    (hB : 0 ≤ bankroll) (hpct : 0 ≤ settings.MAX_POSITION_PCT)
    (hrej : (calculate_edge settings p m bankroll scan_id market_id estimates dt dtr).tradeable
      = false) :
    (calculate_edge settings p m bankroll scan_id market_id estimates dt dtr).num_contracts
      = 0 ∧
    (calculate_edge settings p m bankroll scan_id market_id
      estimates dt dtr).rejection_reason.isSome = true ∧
    ((taxonomy_rejection settings.MIN_EDGE_THRESHOLD |p - m| (choose_side p m).p_win
        (choose_side p m).profit_if_win (choose_side p m).loss_if_lose).isSome = true →
      (calculate_edge settings p m bankroll scan_id market_id
        estimates dt dtr).position_size_dollars = 0) := by
  cases htax : taxonomy_rejection settings.MIN_EDGE_THRESHOLD |p - m| (choose_side p m).p_win
      (choose_side p m).profit_if_win (choose_side p m).loss_if_lose with
  | some reason =>
    rw [calculate_edge_rejected_form settings p m bankroll scan_id market_id estimates
      dt dtr reason htax]
    exact ⟨rfl, rfl, fun _ => rfl⟩
  | none =>
    rw [calculate_edge_success_form settings p m bankroll scan_id market_id estimates
      dt dtr htax] at hrej ⊢
    dsimp only at hrej ⊢
    obtain ⟨hme, hpw0, hpw1, hpr, hlo⟩ := (taxonomy_rejection_eq_none_iff _ _ _ _ _).mp htax
    have hnc0 : edge_num_contracts settings p m bankroll = 0 := by
      by_cases hev : 0 < edge_ev p m
      · have hncle : ¬ 0 < edge_num_contracts settings p m bankroll := by
          intro hc
          rw [decide_eq_true hev, decide_eq_true hc] at hrej
          exact Bool.noConfusion hrej
        exact le_antisymm (not_lt.mp hncle)
          (edge_num_contracts_nonneg settings p m bankroll hB hpct)
      · by_cases hpm : p > m
        · exact absurd (by rw [edge_ev_yes hpm]; linarith) hev
        · have hple : p ≤ m := not_lt.mp hpm
          have hmp : m = p := by
            have hh := not_lt.mp hev
            rw [edge_ev_no hpm] at hh
            linarith
          have hcs : choose_side p m =
              { side := .no, p_win := 1 - p, profit_if_win := m, loss_if_lose := 1 - m } := by
            unfold choose_side
            rw [if_neg hpm]
          rw [hcs] at hpr hlo
          dsimp only at hpr hlo
          have hm1 : m < 1 := by linarith
          have hhk : edge_half_kelly p m = 0 := by
            unfold edge_half_kelly
            rw [hcs]
            dsimp only
            rw [hmp] at hpw0 ⊢
            unfold half_kelly
            rw [show kelly_criterion (1 - p) p (1 - p) = 0 from by
              have := kelly_criterion_no_side_diag (m := p) (by linarith)
              exact this]
            norm_num
          have hpos : edge_position_dollars settings p m bankroll = 0 := by
            unfold edge_position_dollars
            rw [hhk, zero_mul]
            exact min_eq_left (mul_nonneg (div_nonneg hpct (by norm_num)) hB)
          unfold edge_num_contracts
          split_ifs with hc
          · rw [hpos, zero_div, pyTrunc_zero]
          · rfl
    refine ⟨hnc0, ?_, ?_⟩
    · have hfalse : decide (0 < edge_num_contracts settings p m bankroll) = false := by
        rw [hnc0]
        norm_num
      rw [hfalse, Bool.and_false]
      rfl
    · intro hcontra
      exact absurd hcontra (by simp)

/-- C1 witness (spec scenario 3): `p = 0.52, m = 0.50` is rejected for a
too-small edge; the record has zero contracts, zero position size and a
rejection reason. -/
theorem rejected_edge_zero_contracts_witness :
    (calculate_edge {} 0.52 0.5 10000 "s" 1 [] false none).num_contracts = 0 ∧
    (calculate_edge {} 0.52 0.5 10000 "s" 1 [] false none).rejection_reason.isSome = true ∧
    (calculate_edge {} 0.52 0.5 10000 "s" 1 [] false none).position_size_dollars = 0 := by
  have h := rejected_edge_zero_contracts {} 0.52 0.5 10000 "s" 1 [] false none
    (by norm_num) (of_decide_eq_true (by with_unfolding_all rfl))
    (by with_unfolding_all rfl)
  exact ⟨h.1, h.2.1, h.2.2 (by with_unfolding_all rfl)⟩

/-- C1 counterexample: at `p = 0.70, m = 0.55, bankroll = 1` the position
is too small for one contract, so the record is rejected
(`tradeable = false`, `num_contracts = 0`, reason set), yet
`position_size_dollars = 0.05 ≠ 0`: the sizing fields are not zeroed on
the EV/zero-contracts rejection path. -/
theorem rejected_edge_positive_size_counterexample :
    (calculate_edge {} 0.7 0.55 1 "s" 1 [] false none).tradeable = false ∧
    (calculate_edge {} 0.7 0.55 1 "s" 1 [] false none).num_contracts = 0 ∧
    (calculate_edge {} 0.7 0.55 1 "s" 1 [] false none).rejection_reason.isSome = true ∧
    (calculate_edge {} 0.7 0.55 1 "s" 1 [] false none).position_size_dollars = 0.05 ∧
    (0.05 : ℚ) ≠ 0 :=
  ⟨by with_unfolding_all rfl, by with_unfolding_all rfl, by with_unfolding_all rfl,
   by with_unfolding_all rfl, by norm_num⟩

/-- C4 (amended): every tradeable `EdgeAnalysis` has positive recorded
expected value, at least one contract, `half_kelly_fraction ≤ 0.25`, and
`position_size_dollars` bounded by the position cap rounded to cents
(`pyRound 2 (max_position_pct · bankroll)`; the recorded value can exceed
the unrounded cap by up to half a cent). -/
theorem tradeable_edge_invariants
    (settings : Settings) (p m bankroll : ℚ) (scan_id : String) (market_id : ℤ)
    (estimates : List EstimateDict) (dt : Bool) (dtr : Option String)
    (hminedge : (0.05 : ℚ) ≤ settings.MIN_EDGE_THRESHOLD)
    (htr : (calculate_edge settings p m bankroll scan_id market_id estimates dt dtr).tradeable
      = true) :
    0 < (calculate_edge settings p m bankroll scan_id market_id estimates dt dtr).expected_value ∧
    1 ≤ (calculate_edge settings p m bankroll scan_id market_id estimates dt dtr).num_contracts ∧
    (calculate_edge settings p m bankroll scan_id market_id
        estimates dt dtr).position_size_dollars
      ≤ pyRound 2 (settings.MAX_POSITION_PCT / 100 * bankroll) ∧
    (calculate_edge settings p m bankroll scan_id market_id
        estimates dt dtr).half_kelly_fraction ≤ 0.25 := by
  cases htax : taxonomy_rejection settings.MIN_EDGE_THRESHOLD |p - m| (choose_side p m).p_win
      (choose_side p m).profit_if_win (choose_side p m).loss_if_lose with
  | some reason =>
    rw [calculate_edge_rejected_form settings p m bankroll scan_id market_id estimates
      dt dtr reason htax] at htr
    exact absurd htr (by simp)
  | none =>
    rw [calculate_edge_success_form settings p m bankroll scan_id market_id estimates
      dt dtr htax] at htr ⊢
    dsimp only at htr ⊢
    obtain ⟨hme, hpw0, hpw1, hpr, hlo⟩ := (taxonomy_rejection_eq_none_iff _ _ _ _ _).mp htax
    rw [Bool.and_eq_true] at htr
    obtain ⟨hd1, hd2⟩ := htr
    have hev : 0 < edge_ev p m := of_decide_eq_true hd1
    have hnc : 0 < edge_num_contracts settings p m bankroll := of_decide_eq_true hd2
    have hev_ge : (0.05 : ℚ) ≤ edge_ev p m := by
      by_cases hpm : p > m
      · rw [edge_ev_yes hpm]
        have habs : |p - m| = p - m := abs_of_pos (sub_pos.mpr hpm)
        rw [habs] at hme
        linarith
      · rw [edge_ev_no hpm]
        have hple : p ≤ m := not_lt.mp hpm
        have habs : |p - m| = m - p := by
          rw [abs_sub_comm]
          exact abs_of_nonneg (sub_nonneg.mpr hple)
        rw [habs] at hme
        linarith
    refine ⟨?_, ?_, ?_, ?_⟩
    · have h5 : pyRound 6 (0.05 : ℚ) = 0.05 := by with_unfolding_all rfl
      have := pyRound_mono 6 hev_ge
      rw [h5] at this
      linarith
    · omega
    · exact pyRound_mono 2 (min_le_right _ _)
    · have hq : pyRound 6 (0.25 : ℚ) = 0.25 := by with_unfolding_all rfl
      have := pyRound_mono 6 (half_kelly_le_quarter (choose_side p m).p_win
        (choose_side p m).profit_if_win (choose_side p m).loss_if_lose)
      rw [hq] at this
      exact this

/-- C4 witness (spec scenario 1): `p = 0.70, m = 0.55, B = 10000` is
tradeable and satisfies all four recorded invariants. -/
theorem tradeable_edge_invariants_witness :
    0 < (calculate_edge {} 0.7 0.55 10000 "s" 1 [] false none).expected_value ∧
    1 ≤ (calculate_edge {} 0.7 0.55 10000 "s" 1 [] false none).num_contracts ∧
    (calculate_edge {} 0.7 0.55 10000 "s" 1 [] false none).position_size_dollars
      ≤ pyRound 2 (({} : Settings).MAX_POSITION_PCT / 100 * 10000) ∧
    (calculate_edge {} 0.7 0.55 10000 "s" 1 [] false none).half_kelly_fraction ≤ 0.25 :=
  tradeable_edge_invariants {} 0.7 0.55 10000 "s" 1 [] false none
    (of_decide_eq_true (by with_unfolding_all rfl)) (by with_unfolding_all rfl)

/-- C4 counterexample: at `p = 0.90, m = 0.50, bankroll = 100.111` the
trade is tradeable and the recorded `position_size_dollars = 5.01`
exceeds the unrounded cap `0.05 · 100.111 = 5.00555`: the cents rounding
of the stored field can overshoot `max_position_pct · bankroll`. -/
theorem position_cap_rounding_counterexample :
    (calculate_edge {} 0.9 0.5 100.111 "s" 1 [] false none).tradeable = true ∧
    (calculate_edge {} 0.9 0.5 100.111 "s" 1 [] false none).position_size_dollars = 5.01 ∧
    (({} : Settings).MAX_POSITION_PCT / 100 * 100.111 : ℚ) < 5.01 :=
  ⟨by with_unfolding_all rfl, by with_unfolding_all rfl,
   of_decide_eq_true (by with_unfolding_all rfl)⟩

end PM
